import Mathlib

/-!
Verification of the MRM Cybersecurity API backend (`src/main.py`,
`src/schemas.py`) against its natural-language specification.

The embedding models stored documents as Lean structures with `Option`
fields (a MongoDB document may lack a field; the handler reads fields via
`dict.get` with defaults), route handlers as pure functions from the
database state and the request parameters to the response, and Python
truthiness (`if q:`) explicitly.  The storage accessor (`database.py`,
imported by `main.py` but not part of the sources) is modelled from the
specification where noted.
-/

namespace MRM

/-- Python truthiness of an `Optional[str]` value: `None` and `""` are falsy. -/
def strTruthy : Option String → Bool
  | none => false
  | some s => !(s == "")

/-- `containsSeq pat hay` is true iff `pat` occurs as a contiguous sublist of `hay`. -/
def containsSeq (pat : List Char) : List Char → Bool
  | [] => pat.isPrefixOf []
  | c :: t => pat.isPrefixOf (c :: t) || containsSeq pat t

/-- Case-insensitive substring test on strings (ASCII lowering, as the
`$options: "i"` regex flag behaves on the plain-text patterns used here). -/
def substrCI (hay pat : String) : Bool :=
  containsSeq (pat.data.map Char.toLower) (hay.data.map Char.toLower)

/-- A stored `tool` document.  Fields the handler reads via `dict.get` are
optional, mirroring that a raw document may lack them. -/
structure ToolDoc where
  name : String
  description : Option String := none
  category : Option String := none
  tags : List String := []
  popularity : Option Nat := none
  difficulty : Option String := none
  link : Option String := none
deriving Repr, DecidableEq

/-- A stored `course` document. -/
structure CourseDoc where
  title : String
  thumbnail : Option String := none
  difficulty : Option String := none
  slug : String
  description : Option String := none
deriving Repr, DecidableEq

/-- A stored `lab` document. -/
structure LabDoc where
  title : String
  category : Option String := none
  estimated_minutes : Nat
  link : Option String := none
  score : Nat := 0
deriving Repr, DecidableEq

/-- A subscriber record (`schemas.Subscriber`). -/
structure Subscriber where
  email : String
  source : Option String := some "website"
deriving Repr, DecidableEq

/-- A contact message record (`schemas.ContactMessage`). -/
structure ContactMessage where
  name : String
  email : String
  message : String
deriving Repr, DecidableEq

/-- The connected database's collections (one list per collection used by the
routes; collection names are the lowercased schema class names). -/
structure DBState where
  tool : List ToolDoc := []
  course : List CourseDoc := []
  lab : List LabDoc := []
  subscriber : List Subscriber := []
  contactmessage : List ContactMessage := []
deriving Repr, DecidableEq

/-- The Mongo filter dictionary built by `list_tools` (`src/main.py` lines
84-88): an optional case-insensitive `$regex` on `name` and an optional
exact value on `category`. -/
structure FilterDict where
  nameRegex : Option String := none
  category : Option String := none
deriving Repr, DecidableEq

/-- `src/main.py` lines 84-88: start from the empty dict, add the `name`
regex when `q` is truthy, add the `category` equality when `category` is
truthy. -/
def buildFilter (q category : Option String) : FilterDict :=
  let f : FilterDict := {}
  let f := if strTruthy q then { f with nameRegex := q } else f
  if strTruthy category then { f with category := category } else f

/-- Modelled from the spec: `database.py` is not among the sources, and the
filter dictionary is evaluated by the document store's `find`.  Per the
spec (§4.3), a `$regex` with option `i` on `name` keeps records whose
`name` contains the pattern as a case-insensitive substring, and the
`category` entry keeps exact matches on the `category` field (a document
without the field does not match an equality filter). -/
def matchesFilter (f : FilterDict) (t : ToolDoc) : Bool :=
  (match f.nameRegex with
   | none => true
   | some p => substrCI t.name p)
  && (match f.category with
      | none => true
      | some c => t.category == some c)

/-- `x.get("popularity", 0)` in the popularity sort key. -/
def popKey (t : ToolDoc) : Nat := t.popularity.getD 0

/-- `diff_order.get(x.get("difficulty", "Beginner"), 0)`: the rank dict
`{"Beginner": 0, "Intermediate": 1, "Advanced": 2}` looked up with default
0, after a field default of `"Beginner"`. -/
def diffRank (t : ToolDoc) : Nat :=
  match t.difficulty.getD "Beginner" with
  | "Beginner" => 0
  | "Intermediate" => 1
  | "Advanced" => 2
  | _ => 0

/-- `x.get("category", "")` in the category sort key. -/
def catKey (t : ToolDoc) : String := t.category.getD ""

/-- Comparator for `tools.sort(key=popularity, reverse=True)`: Python's sort
is stable; with `reverse=True` an earlier element stays before a later one
unless its key is strictly smaller. -/
def popLe (a b : ToolDoc) : Bool := popKey b ≤ popKey a

/-- Comparator for the ascending difficulty-rank sort. -/
def diffLe (a b : ToolDoc) : Bool := diffRank a ≤ diffRank b

/-- Comparator for the ascending lexical category sort. -/
def catLe (a b : ToolDoc) : Bool := catKey a ≤ catKey b

/-- `GET /tools` (`src/main.py` lines 80-99).  `db` is `none` when no
database is configured.  The handler builds the filter dict, fetches the
matching documents, then applies one of three stable in-place sorts
selected by `sort`; any other `sort` value leaves the fetched order. -/
def list_tools (db : Option DBState) (q category sort : Option String) :
    List ToolDoc :=
  match db with
  | none => []
  | some s =>
    let tools := s.tool.filter (matchesFilter (buildFilter q category))
    if sort == some "popularity" then tools.mergeSort popLe
    else if sort == some "difficulty" then tools.mergeSort diffLe
    else if sort == some "category" then tools.mergeSort catLe
    else tools

/-- `GET /courses` (`src/main.py` lines 101-108): empty list when no
database, otherwise every document of the `course` collection unfiltered. -/
def list_courses (db : Option DBState) : List CourseDoc :=
  match db with
  | none => []
  | some s => s.course

/-- Modelled from the spec: `create_document(kind, record)` (in
`database.py`, which is not among the sources) inserts exactly one record
into the named collection (spec §4.2); specialised here to appending at
the end of the collection's list. -/
def insertDoc {α : Type} (coll : List α) (d : α) : List α := coll ++ [d]

/-- The response of the write endpoints: `{"status": "ok"}`,
`{"status": "disabled"}`, or an `HTTPException` with a status code. -/
inductive PostResponse
  | ok
  | disabled
  | httpError (status : Nat)
deriving Repr, DecidableEq

/-- First seeded tool (`src/main.py` line 68). -/
def nmapTool : ToolDoc :=
  { name := "Nmap"
    description := some "Network exploration tool and security / port scanner."
    category := some "Reconnaissance"
    tags := ["network", "scanner"]
    popularity := some 95
    difficulty := some "Intermediate"
    link := some "https://nmap.org" }

/-- Second seeded tool (`src/main.py` line 69). -/
def wiresharkTool : ToolDoc :=
  { name := "Wireshark"
    description := some "Network protocol analyzer."
    category := some "Forensics"
    tags := ["packet", "analyzer"]
    popularity := some 90
    difficulty := some "Beginner"
    link := some "https://www.wireshark.org" }

/-- First seeded course (`src/main.py` line 71). -/
def courseEthicalHacking : CourseDoc :=
  { title := "Ethical Hacking Basics"
    difficulty := some "Beginner"
    slug := "ethical-hacking-basics"
    description := some "Kickstart into ethical hacking." }

/-- Second seeded course (`src/main.py` line 72). -/
def courseLinuxForHackers : CourseDoc :=
  { title := "Linux for Hackers"
    difficulty := some "Beginner"
    slug := "linux-for-hackers" }

/-- Seeded lab (`src/main.py` line 74). -/
def introReconLab : LabDoc :=
  { title := "Intro Recon Lab"
    category := some "Beginner"
    estimated_minutes := 20
    score := 0 }

/-- The state transformation of a successful `POST /seed` (`src/main.py`
lines 67-74): each of the `tool`, `course`, `lab` collections receives its
fixed sample records only when it is empty at that point. -/
def seedState (s : DBState) : DBState :=
  let s := if s.tool.isEmpty then
      { s with tool := insertDoc (insertDoc s.tool nmapTool) wiresharkTool }
    else s
  let s := if s.course.isEmpty then
      { s with course :=
          insertDoc (insertDoc s.course courseEthicalHacking) courseLinuxForHackers }
    else s
  if s.lab.isEmpty then { s with lab := insertDoc s.lab introReconLab } else s

/-- `POST /seed` (`src/main.py` lines 61-77): with no database configured
the handler raises `HTTPException(500, ...)` (re-raised by the catch-all
as a 500); otherwise it seeds the empty collections and returns
`{"status": "ok"}`. -/
def seed (db : Option DBState) : Option DBState × PostResponse :=
  match db with
  | none => (none, .httpError 500)
  | some s => (some (seedState s), .ok)

/-- `POST /subscribe` (`src/main.py` lines 164-169): `disabled` without a
database, otherwise insert the subscriber and answer `ok`. -/
def subscribe (db : Option DBState) (sub : Subscriber) :
    Option DBState × PostResponse :=
  match db with
  | none => (none, .disabled)
  | some s => (some { s with subscriber := insertDoc s.subscriber sub }, .ok)

/-- `POST /contact` (`src/main.py` lines 171-176): `disabled` without a
database, otherwise insert the message and answer `ok`. -/
def contact (db : Option DBState) (msg : ContactMessage) :
    Option DBState × PostResponse :=
  match db with
  | none => (none, .disabled)
  | some s =>
    (some { s with contactmessage := insertDoc s.contactmessage msg }, .ok)

/-- Python `x or y` on two `Optional[str]` values: the left operand unless
it is falsy (`None` or `""`). -/
def pyOrOpt (a b : Option String) : Option String :=
  match a with
  | none => b
  | some s => if s == "" then b else some s

/-- The response shape of `GET /news` (`main.NewsItem`). -/
structure NewsItem where
  title : String
  description : Option String := none
  url : String
  image_url : Option String := none
  source : Option String := none
  published_at : Option String := none
deriving Repr, DecidableEq

/-- One raw result object from the NewsData.io provider, restricted to the
keys `get_news` reads; each is an optional string. -/
structure ProviderItem where
  title : Option String := none
  description : Option String := none
  link : Option String := none
  url : Option String := none
  image_url : Option String := none
  source_id : Option String := none
  pubDate : Option String := none
deriving Repr, DecidableEq

/-- The field mapping of one provider result into a `NewsItem`
(`src/main.py` lines 123-130), with Python `or` fallback chains:
`title or "Untitled"`, `link or url or ""`,
`image_url or image_url or None`, `pubDate or pubDate`. -/
def toNewsItem (a : ProviderItem) : NewsItem :=
  { title := (pyOrOpt a.title (some "Untitled")).getD "Untitled"
    description := a.description
    url := (pyOrOpt a.link a.url).getD ""
    image_url := pyOrOpt (pyOrOpt a.image_url a.image_url) none
    source := a.source_id
    published_at := pyOrOpt a.pubDate a.pubDate }

/-- The fixed fallback sample of `GET /news` (`src/main.py` lines 135-140);
`now` is the single `datetime.now(timezone.utc).isoformat()` taken when
the fallback is built. -/
def sampleNews (now : String) : List NewsItem :=
  [ { title := "Latest CVE trends show rise in supply-chain attacks"
      url := "https://thehackernews.com/"
      source := some "Sample"
      published_at := some now },
    { title := "Krebs: Major ISP suffers DDoS impacting services"
      url := "https://krebsonsecurity.com/"
      source := some "Sample"
      published_at := some now },
    { title := "ThreatPost: Critical bug patched in popular router firmware"
      url := "https://threatpost.com/"
      source := some "Sample"
      published_at := some now } ]

/-- Outcome of the outbound provider call: the request raised an exception
(swallowed by the bare `except`), or returned a JSON body whose
`"results"` key is absent (`None`) or a list of result objects. -/
inductive FetchOutcome
  | raised
  | returned (results : Option (List ProviderItem))
deriving Repr, DecidableEq

/-- `GET /news` (`src/main.py` lines 112-141).  `key1`/`key2` are the
`NEWSDATA_API_KEY` and `NEWSAPI_KEY` environment variables; the key is
`key1 or key2` and the provider is called only when that is truthy.  On an
exception `items` stays empty; otherwise the first 12 of
`data.get("results") or []` are mapped.  An empty `items` is replaced by
the 3-item sample stamped with the single current time `now`. -/
def get_news (key1 key2 : Option String) (outcome : FetchOutcome)
    (now : String) : List NewsItem :=
  let apiKey := pyOrOpt key1 key2
  let items : List NewsItem :=
    if strTruthy apiKey then
      match outcome with
      | .raised => []
      | .returned rs => ((rs.getD []).take 12).map toNewsItem
    else []
  if items.isEmpty then sampleNews now else items

/-- The closed value set of `Tool.category`
(`src/schemas.py` lines 14-16). -/
def toolCategories : List String :=
  ["Reconnaissance", "Exploitation", "Forensics", "Web Security",
   "Wireless", "OSINT"]

/-- The closed value set of `Tool.difficulty` and `Course.difficulty`
(`src/schemas.py` line 19). -/
def difficulties : List String := ["Beginner", "Intermediate", "Advanced"]

/-- The closed value set of `Lab.category` (`src/schemas.py` line 31). -/
def labCategories : List String := ["Beginner", "Intermediate", "Advanced"]

/-- A validated `Tool` record (`src/schemas.py` lines 11-20). -/
structure Tool where
  name : String
  description : String
  category : String
  tags : List String
  popularity : Nat
  difficulty : String
  link : Option String
deriving Repr, DecidableEq

/-- A validated `Lab` record (`src/schemas.py` lines 29-34). -/
structure Lab where
  title : String
  category : String
  estimated_minutes : Nat
  link : Option String
  score : Nat
deriving Repr, DecidableEq

/-- Raw (pre-validation) input to the `Tool` schema: field names and types
match, constraints not yet checked.  Defaults are the schema defaults. -/
structure ToolInput where
  name : String
  description : String
  category : String
  tags : List String := []
  popularity : Int := 0
  difficulty : String := "Beginner"
  link : Option String := none
deriving Repr, DecidableEq

/-- Raw (pre-validation) input to the `Lab` schema. -/
structure LabInput where
  title : String
  category : String
  estimated_minutes : Int
  link : Option String := none
  score : Int := 0
deriving Repr, DecidableEq

/-- An optional `HttpUrl` field accepts `None`; a present value must parse
as a well-formed URL.  URL well-formedness itself is pydantic's `HttpUrl`
parser, abstracted as the predicate `urlValid`. -/
def optUrlOk (urlValid : String → Bool) : Option String → Bool
  | none => true
  | some s => urlValid s

/-- Validation of the `Tool` schema (`src/schemas.py` lines 11-20):
`category` in its `Literal` set, `popularity ≥ 0` (`Field(0, ge=0)`),
`difficulty` in its `Literal` set, `link` optional but well-formed when
present.  `none` is pydantic's `ValidationError`. -/
def validateTool (urlValid : String → Bool) (i : ToolInput) : Option Tool :=
  if toolCategories.contains i.category && decide (0 ≤ i.popularity)
      && difficulties.contains i.difficulty && optUrlOk urlValid i.link then
    some { name := i.name, description := i.description
           category := i.category, tags := i.tags
           popularity := i.popularity.toNat, difficulty := i.difficulty
           link := i.link }
  else none

/-- Validation of the `Lab` schema (`src/schemas.py` lines 29-34):
`category` in its `Literal` set, `estimated_minutes` in `[5, 240]`
(`Field(..., ge=5, le=240)`), `link` optional but well-formed when
present, `score ≥ 0`. -/
def validateLab (urlValid : String → Bool) (i : LabInput) : Option Lab :=
  if labCategories.contains i.category && decide (5 ≤ i.estimated_minutes)
      && decide (i.estimated_minutes ≤ 240) && optUrlOk urlValid i.link
      && decide (0 ≤ i.score) then
    some { title := i.title, category := i.category
           estimated_minutes := i.estimated_minutes.toNat
           link := i.link, score := i.score.toNat }
  else none

end MRM

namespace MRM

example : substrCI "Nmap" "map" = true := by decide
example : substrCI "Wireshark" "map" = false := by decide
example : substrCI "Nmap" "MAP" = true := by decide

/-! ## Helper lemmas -/

/-- A stable sort leaves the subsequence of mutually tied elements exactly
where the input had it: filtering the sorted list by a predicate whose
holders are pairwise tied under `le` gives the filtered input. -/
theorem mergeSort_filter_eq_of_tied {α : Type} {le : α → α → Bool}
    (trans : ∀ a b c, le a b → le b c → le a c)
    (total : ∀ a b, le a b || le b a)
    (l : List α) (p : α → Bool)
    (tied : ∀ a b, p a = true → p b = true → le a b = true) :
    (l.mergeSort le).filter p = l.filter p := by
  have hpair : (l.filter p).Pairwise (fun a b => le a b = true) :=
    List.pairwise_of_forall_mem_list fun a ha b hb =>
      tied a b (List.mem_filter.mp ha).2 (List.mem_filter.mp hb).2
  have hsub : List.Sublist (l.filter p) (l.mergeSort le) :=
    List.sublist_mergeSort trans total hpair (List.filter_sublist l)
  have hself : (l.filter p).filter p = l.filter p :=
    List.filter_eq_self.mpr fun a ha => (List.mem_filter.mp ha).2
  have hsub2 : List.Sublist (l.filter p) ((l.mergeSort le).filter p) := by
    have h2 := hsub.filter p
    rwa [hself] at h2
  have hlen : (l.filter p).length = ((l.mergeSort le).filter p).length :=
    (((List.mergeSort_perm l le).filter p).length_eq).symm
  exact (hsub2.eq_of_length hlen).symm

theorem popLe_trans : ∀ a b c, popLe a b → popLe b c → popLe a c := by
  intro a b c hab hbc
  simp only [popLe, decide_eq_true_eq] at *
  omega

theorem popLe_total : ∀ a b, popLe a b || popLe b a := by
  intro a b
  simp only [popLe, Bool.or_eq_true, decide_eq_true_eq]
  omega

theorem diffLe_trans : ∀ a b c, diffLe a b → diffLe b c → diffLe a c := by
  intro a b c hab hbc
  simp only [diffLe, decide_eq_true_eq] at *
  omega

theorem diffLe_total : ∀ a b, diffLe a b || diffLe b a := by
  intro a b
  simp only [diffLe, Bool.or_eq_true, decide_eq_true_eq]
  omega

theorem catLe_trans : ∀ a b c, catLe a b → catLe b c → catLe a c := by
  intro a b c hab hbc
  simp only [catLe, decide_eq_true_eq] at *
  exact le_trans hab hbc

theorem catLe_total : ∀ a b, catLe a b || catLe b a := by
  intro a b
  rcases le_total (catKey a) (catKey b) with h | h <;>
    simp [catLe, h]

theorem seedState_tool (s : DBState) :
    (seedState s).tool =
      if s.tool.isEmpty then [nmapTool, wiresharkTool] else s.tool := by
  simp only [seedState, insertDoc]
  split_ifs <;> simp_all

theorem seedState_course (s : DBState) :
    (seedState s).course =
      if s.course.isEmpty then [courseEthicalHacking, courseLinuxForHackers]
      else s.course := by
  simp only [seedState, insertDoc]
  split_ifs <;> simp_all

theorem seedState_lab (s : DBState) :
    (seedState s).lab =
      if s.lab.isEmpty then [introReconLab] else s.lab := by
  simp only [seedState, insertDoc]
  split_ifs <;> simp_all

theorem seedState_subscriber (s : DBState) :
    (seedState s).subscriber = s.subscriber := by
  simp only [seedState, insertDoc]
  split_ifs <;> simp_all

theorem seedState_contactmessage (s : DBState) :
    (seedState s).contactmessage = s.contactmessage := by
  simp only [seedState, insertDoc]
  split_ifs <;> simp_all

theorem fields_eq_imp_eq (a b : DBState) (h1 : a.tool = b.tool)
    (h2 : a.course = b.course) (h3 : a.lab = b.lab)
    (h4 : a.subscriber = b.subscriber)
    (h5 : a.contactmessage = b.contactmessage) : a = b := by
  cases a
  cases b
  simp_all

theorem seedState_idem (s : DBState) :
    seedState (seedState s) = seedState s := by
  refine fields_eq_imp_eq _ _ ?_ ?_ ?_ ?_ ?_
  · rw [seedState_tool, seedState_tool s]
    cases h : s.tool.isEmpty <;> simp [h]
  · rw [seedState_course, seedState_course s]
    cases h : s.course.isEmpty <;> simp [h]
  · rw [seedState_lab, seedState_lab s]
    cases h : s.lab.isEmpty <;> simp [h]
  · rw [seedState_subscriber, seedState_subscriber]
  · rw [seedState_contactmessage, seedState_contactmessage]

/-! ## Claim theorems -/

/-- C5: for every valid `POST /subscribe` or `POST /contact` body, an
unavailable storage yields `{"status": "disabled"}` with the state (still
no storage) unchanged and no write, while available storage yields
`{"status": "ok"}` and exactly one record appended to the corresponding
collection, the others untouched. -/
theorem subscribe_contact_storage (s : DBState) (sub : Subscriber)
    (msg : ContactMessage) :
    subscribe none sub = (none, PostResponse.disabled)
    ∧ contact none msg = (none, PostResponse.disabled)
    ∧ subscribe (some s) sub =
        (some { s with subscriber := s.subscriber ++ [sub] }, PostResponse.ok)
    ∧ contact (some s) msg =
        (some { s with contactmessage := s.contactmessage ++ [msg] },
         PostResponse.ok) := by
  refine ⟨rfl, rfl, ?_, ?_⟩ <;> simp [subscribe, contact, insertDoc]

/-- C6: `POST /seed` is idempotent on the stored content — it inserts its
fixed sample records into a collection only when that collection is empty,
so running `seed` on a state already produced by `seed` changes nothing. -/
theorem seed_idempotent (s : DBState) :
    seed ((seed (some s)).1) = ((seed (some s)).1, PostResponse.ok)
    ∧ (s.tool = [] → (seedState s).tool = [nmapTool, wiresharkTool])
    ∧ (s.tool ≠ [] → (seedState s).tool = s.tool)
    ∧ (s.course = [] →
        (seedState s).course = [courseEthicalHacking, courseLinuxForHackers])
    ∧ (s.course ≠ [] → (seedState s).course = s.course)
    ∧ (s.lab = [] → (seedState s).lab = [introReconLab])
    ∧ (s.lab ≠ [] → (seedState s).lab = s.lab) := by
  refine ⟨?_, ?_, ?_, ?_, ?_, ?_, ?_⟩
  · show seed (some (seedState s)) = (some (seedState s), PostResponse.ok)
    simp [seed, seedState_idem]
  all_goals intro h
  · rw [seedState_tool]; simp [h]
  · rw [seedState_tool]; simp [h]
  · rw [seedState_course]; simp [h]
  · rw [seedState_course]; simp [h]
  · rw [seedState_lab]; simp [h]
  · rw [seedState_lab]; simp [h]

/-- C6 witness: seeding an empty database twice gives the same state as
seeding it once, with the fixed sample records present exactly once. -/
theorem seed_idempotent_witness :
    seed ((seed (some {})).1) = ((seed (some {})).1, PostResponse.ok)
    ∧ (seedState {}).tool = [nmapTool, wiresharkTool]
    ∧ (seedState {}).lab = [introReconLab] :=
  ⟨(seed_idempotent {}).1, (seed_idempotent {}).2.1 rfl,
   (seed_idempotent {}).2.2.2.2.2.1 rfl⟩

/-- C7: with storage unavailable, `POST /seed` fails with HTTP status 500
while `GET /tools` (for every combination of query parameters) and
`GET /courses` return an empty list rather than an error. -/
theorem storage_unavailable_responses :
    (seed none = (none, PostResponse.httpError 500))
    ∧ (∀ q c srt, list_tools none q c srt = [])
    ∧ list_courses none = [] :=
  ⟨rfl, fun _ _ _ => rfl, rfl⟩

theorem ite_some_eq_none_iff {α : Type} (c : Prop) [Decidable c] (x : α) :
    (if c then some x else none) = none ↔ ¬c := by
  split <;> simp_all

theorem contains_iff_mem_str (l : List String) (a : String) :
    l.contains a = true ↔ a ∈ l := by
  simp [List.contains, List.elem_iff]

/-- C4: schema validation fails exactly on out-of-constraint input.  A
`Tool` is rejected iff its `popularity` is negative, its `category` or
`difficulty` lies outside the enumerated set, or a present `link` fails
URL parsing; a `Lab` is rejected iff its `estimated_minutes` leaves
`[5, 240]`, its `category` leaves its 3-value set, a present `link` fails
URL parsing, or its `score` is negative; an absent optional URL is always
accepted. -/
theorem schema_validation_exact (uv : String → Bool) (ti : ToolInput)
    (li : LabInput) :
    (validateTool uv ti = none ↔
      ¬(ti.category ∈ toolCategories ∧ 0 ≤ ti.popularity
        ∧ ti.difficulty ∈ difficulties ∧ optUrlOk uv ti.link = true))
    ∧ (validateLab uv li = none ↔
      ¬(li.category ∈ labCategories ∧ 5 ≤ li.estimated_minutes
        ∧ li.estimated_minutes ≤ 240 ∧ optUrlOk uv li.link = true
        ∧ 0 ≤ li.score))
    ∧ (ti.popularity < 0 → validateTool uv ti = none)
    ∧ (ti.category ∉ toolCategories → validateTool uv ti = none)
    ∧ (ti.difficulty ∉ difficulties → validateTool uv ti = none)
    ∧ (li.estimated_minutes < 5 → validateLab uv li = none)
    ∧ (240 < li.estimated_minutes → validateLab uv li = none)
    ∧ (li.category ∉ labCategories → validateLab uv li = none)
    ∧ optUrlOk uv none = true
    ∧ (∀ u, ti.link = some u → uv u = false → validateTool uv ti = none) := by
  have htool : validateTool uv ti = none ↔
      ¬(ti.category ∈ toolCategories ∧ 0 ≤ ti.popularity
        ∧ ti.difficulty ∈ difficulties ∧ optUrlOk uv ti.link = true) := by
    unfold validateTool
    rw [ite_some_eq_none_iff]
    apply not_congr
    simp only [Bool.and_eq_true, decide_eq_true_eq, contains_iff_mem_str,
      and_assoc]
  have hlab : validateLab uv li = none ↔
      ¬(li.category ∈ labCategories ∧ 5 ≤ li.estimated_minutes
        ∧ li.estimated_minutes ≤ 240 ∧ optUrlOk uv li.link = true
        ∧ 0 ≤ li.score) := by
    unfold validateLab
    rw [ite_some_eq_none_iff]
    apply not_congr
    simp only [Bool.and_eq_true, decide_eq_true_eq, contains_iff_mem_str,
      and_assoc]
  refine ⟨htool, hlab, ?_, ?_, ?_, ?_, ?_, ?_, rfl, ?_⟩
  · intro h
    refine htool.mpr ?_
    rintro ⟨-, h2, -⟩
    omega
  · intro h
    refine htool.mpr ?_
    rintro ⟨h1, -⟩
    exact h h1
  · intro h
    refine htool.mpr ?_
    rintro ⟨-, -, h3, -⟩
    exact h h3
  · intro h
    refine hlab.mpr ?_
    rintro ⟨-, h2, -⟩
    omega
  · intro h
    refine hlab.mpr ?_
    rintro ⟨-, -, h3, -⟩
    omega
  · intro h
    refine hlab.mpr ?_
    rintro ⟨h1, -⟩
    exact h h1
  · intro u hu huv
    refine htool.mpr ?_
    rintro ⟨-, -, -, h4⟩
    rw [hu] at h4
    simp [optUrlOk, huv] at h4

/-- C4 witness: a negative popularity rejects a `Tool`, an out-of-range
`estimated_minutes` rejects a `Lab`, and in-constraint inputs are
accepted. -/
theorem schema_validation_exact_witness :
    validateTool (fun s => !(s == ""))
        { name := "Nmap", description := "d", category := "Reconnaissance",
          popularity := -1 } = none
    ∧ validateLab (fun s => !(s == ""))
        { title := "L", category := "Beginner", estimated_minutes := 241 }
        = none
    ∧ validateTool (fun s => !(s == ""))
        { name := "Nmap", description := "d",
          category := "Bad" } = none :=
  ⟨(schema_validation_exact (fun s => !(s == ""))
      { name := "Nmap", description := "d", category := "Reconnaissance",
        popularity := -1 }
      { title := "L", category := "Beginner",
        estimated_minutes := 241 }).2.2.1 (by decide),
   (schema_validation_exact (fun s => !(s == ""))
      { name := "Nmap", description := "d", category := "Reconnaissance",
        popularity := -1 }
      { title := "L", category := "Beginner",
        estimated_minutes := 241 }).2.2.2.2.2.2.1 (by decide),
   (schema_validation_exact (fun s => !(s == ""))
      { name := "Nmap", description := "d", category := "Bad" }
      { title := "L", category := "Beginner",
        estimated_minutes := 241 }).2.2.2.1 (by decide)⟩

/-- C3: whenever no API key is configured (both environment variables unset
or falsy), or the provider call raised, or it yielded zero usable items,
`GET /news` returns exactly the 3 fixed sample items, each with source
`"Sample"` and all three sharing the single request timestamp `now`. -/
theorem news_fallback_sample (key1 key2 : Option String)
    (outcome : FetchOutcome) (now : String)
    (h : strTruthy (pyOrOpt key1 key2) = false ∨ outcome = FetchOutcome.raised
      ∨ outcome = FetchOutcome.returned none
      ∨ outcome = FetchOutcome.returned (some [])) :
    get_news key1 key2 outcome now = sampleNews now
    ∧ (get_news key1 key2 outcome now).length = 3
    ∧ ∀ item ∈ get_news key1 key2 outcome now,
        item.source = some "Sample" ∧ item.published_at = some now := by
  have hmain : get_news key1 key2 outcome now = sampleNews now := by
    rcases h with h | h | h | h <;> simp [get_news, h]
  refine ⟨hmain, ?_, ?_⟩
  · rw [hmain]; rfl
  · rw [hmain]
    intro item hitem
    simp only [sampleNews, List.mem_cons, List.not_mem_nil, or_false] at hitem
    rcases hitem with h | h | h <;> subst h <;> exact ⟨rfl, rfl⟩

/-- C3 witness: with no API key at all the response is the 3-item sample
sharing one timestamp. -/
theorem news_fallback_sample_witness :
    get_news none none FetchOutcome.raised "2024-01-01T00:00:00+00:00" =
      sampleNews "2024-01-01T00:00:00+00:00"
    ∧ (get_news none none FetchOutcome.raised
        "2024-01-01T00:00:00+00:00").length = 3 :=
  ⟨(news_fallback_sample none none FetchOutcome.raised _ (Or.inl rfl)).1,
   (news_fallback_sample none none FetchOutcome.raised _ (Or.inl rfl)).2.1⟩

/-- C9: on a successful provider call (truthy key, no exception, at least
one result) `GET /news` is the field-mapping of at most the first 12
provider results; the mapping defaults a missing title to `"Untitled"`
and takes the `link` field for `url`, falling back to the `url` field. -/
theorem news_provider_mapping (k : String) (key2 : Option String)
    (rs : List ProviderItem) (now : String) (hk : k ≠ "") (hrs : rs ≠ []) :
    get_news (some k) key2 (FetchOutcome.returned (some rs)) now =
        (rs.take 12).map toNewsItem
    ∧ (get_news (some k) key2 (FetchOutcome.returned (some rs)) now).length
        ≤ 12
    ∧ (∀ a : ProviderItem, a.title = none → (toNewsItem a).title = "Untitled")
    ∧ (∀ a : ProviderItem, ∀ l, a.link = some l → l ≠ "" →
        (toNewsItem a).url = l)
    ∧ (∀ a : ProviderItem, ∀ u, a.link = none → a.url = some u →
        (toNewsItem a).url = u) := by
  have hkey : strTruthy (pyOrOpt (some k) key2) = true := by
    simp [pyOrOpt, strTruthy, hk]
  have hmain : get_news (some k) key2 (FetchOutcome.returned (some rs)) now =
      (rs.take 12).map toNewsItem := by
    rcases rs with _ | ⟨a, t⟩
    · exact absurd rfl hrs
    · simp [get_news, hkey, List.take_cons]
  refine ⟨hmain, ?_, ?_, ?_, ?_⟩
  · rw [hmain, List.length_map, List.length_take]
    exact min_le_left _ _
  · intro a ha; simp [toNewsItem, pyOrOpt, ha]
  · intro a l ha hl; simp [toNewsItem, pyOrOpt, ha, hl]
  · intro a u ha hu; simp [toNewsItem, pyOrOpt, ha, hu]

/-- C9 witness: a single-result response maps to one item with the default
title and the link-field URL. -/
theorem news_provider_mapping_witness :
    get_news (some "k") none
        (FetchOutcome.returned (some [{ link := some "https://x.example/" }]))
        "t" =
      [{ title := "Untitled", url := "https://x.example/" : NewsItem }] := by
  have h := news_provider_mapping "k" none
    [{ link := some "https://x.example/" }] "t" (by decide) (by simp)
  rw [h.1]
  simp [toNewsItem, pyOrOpt]

/-- C1: the filter phase of `GET /tools`: a given (non-empty) `q` keeps
exactly the records whose `name` contains `q` as a case-insensitive
substring; a given (non-empty) `category` keeps exactly the records whose
`category` field equals it (exact, case-sensitive); both given combine by
AND; neither given keeps everything. -/
theorem tools_filter_semantics (s : DBState) (qs cs : String)
    (hq : qs ≠ "") (hc : cs ≠ "") :
    list_tools (some s) (some qs) none none =
        s.tool.filter (fun t => substrCI t.name qs)
    ∧ list_tools (some s) none (some cs) none =
        s.tool.filter (fun t => t.category == some cs)
    ∧ list_tools (some s) (some qs) (some cs) none =
        s.tool.filter (fun t => substrCI t.name qs && t.category == some cs)
    ∧ list_tools (some s) none none none = s.tool := by
  have hqt : strTruthy (some qs) = true := by simp [strTruthy, hq]
  have hct : strTruthy (some cs) = true := by simp [strTruthy, hc]
  have hb1 : buildFilter (some qs) none = { nameRegex := some qs } := by
    simp [buildFilter, strTruthy, hq]
  have hb2 : buildFilter none (some cs) = { category := some cs } := by
    simp [buildFilter, strTruthy, hc]
  have hb3 : buildFilter (some qs) (some cs) =
      { nameRegex := some qs, category := some cs } := by
    simp [buildFilter, hqt, hct]
  refine ⟨?_, ?_, ?_, ?_⟩
  · show s.tool.filter (matchesFilter (buildFilter (some qs) none)) = _
    rw [hb1]
    exact List.filter_congr fun t _ => by simp [matchesFilter]
  · show s.tool.filter (matchesFilter (buildFilter none (some cs))) = _
    rw [hb2]
    exact List.filter_congr fun t _ => by simp [matchesFilter]
  · show s.tool.filter (matchesFilter (buildFilter (some qs) (some cs))) = _
    rw [hb3]
    exact List.filter_congr fun t _ => rfl
  · show s.tool.filter (matchesFilter (buildFilter none none)) = _
    exact List.filter_eq_self.mpr fun t _ => rfl

/-- C1 witness: on the seeded store, `q=map` keeps Nmap and not Wireshark,
`category=Reconnaissance` keeps only the exact category match, and both
together keep their intersection. -/
theorem tools_filter_semantics_witness :
    list_tools (some { tool := [nmapTool, wiresharkTool] })
        (some "map") none none = [nmapTool]
    ∧ list_tools (some { tool := [nmapTool, wiresharkTool] })
        none (some "Reconnaissance") none = [nmapTool]
    ∧ list_tools (some { tool := [nmapTool, wiresharkTool] })
        (some "shark") (some "Reconnaissance") none = [] := by
  have h1 := tools_filter_semantics { tool := [nmapTool, wiresharkTool] }
    "map" "Reconnaissance" (by decide) (by decide)
  have h2 := tools_filter_semantics { tool := [nmapTool, wiresharkTool] }
    "shark" "Reconnaissance" (by decide) (by decide)
  refine ⟨?_, ?_, ?_⟩
  · rw [h1.1]; decide
  · rw [h1.2.1]; decide
  · rw [h2.2.2.1]; decide

/-- C2: with `sort=popularity`, `GET /tools` returns the (filtered) records
in non-increasing order of popularity, a missing popularity counting as 0,
and records of equal popularity keep their prior relative order: filtering
the output down to any one popularity value gives exactly the
corresponding subsequence of the stored order. -/
theorem tools_popularity_sort_correct (s : DBState) (q c : Option String) :
    (list_tools (some s) q c (some "popularity")).Pairwise
        (fun a b => popKey b ≤ popKey a)
    ∧ (list_tools (some s) q c (some "popularity")).Perm
        (s.tool.filter (matchesFilter (buildFilter q c)))
    ∧ (∀ n : Nat,
        (list_tools (some s) q c (some "popularity")).filter
            (fun t => popKey t == n)
          = (s.tool.filter (matchesFilter (buildFilter q c))).filter
              (fun t => popKey t == n))
    ∧ (∀ t : ToolDoc, t.popularity = none → popKey t = 0) := by
  have hdef : list_tools (some s) q c (some "popularity") =
      (s.tool.filter (matchesFilter (buildFilter q c))).mergeSort popLe := rfl
  refine ⟨?_, ?_, ?_, ?_⟩
  · rw [hdef]
    exact (List.sorted_mergeSort popLe_trans popLe_total _).imp
      (fun h => by simpa [popLe] using h)
  · rw [hdef]
    exact List.mergeSort_perm _ _
  · intro n
    rw [hdef]
    refine mergeSort_filter_eq_of_tied popLe_trans popLe_total _ _ ?_
    intro a b ha hb
    have ha2 : popKey a = n := by simpa using ha
    have hb2 : popKey b = n := by simpa using hb
    simp [popLe, ha2, hb2]
  · intro t h
    simp [popKey, h]

/-- C2 witness: a record without a popularity field has sort key 0, and the
theorem applies to a concrete store. -/
theorem tools_popularity_sort_correct_witness :
    popKey { name := "NoPop" } = 0
    ∧ (list_tools (some { tool := [wiresharkTool, nmapTool] }) none none
        (some "popularity")).Perm [wiresharkTool, nmapTool] := by
  constructor
  · exact (tools_popularity_sort_correct {} none none).2.2.2
      { name := "NoPop" } rfl
  · have h := (tools_popularity_sort_correct
      { tool := [wiresharkTool, nmapTool] } none none).2.1
    simpa [matchesFilter, buildFilter, strTruthy] using h

/-- C8: with `sort=difficulty`, `GET /tools` orders records ascending by the
rank Beginner 0 < Intermediate 1 < Advanced 2 (a missing or unrecognized
difficulty ranking 0); with `sort=category` it orders ascending by lexical
string comparison (a missing category counting as the empty string); any
absent or unrecognized `sort` value leaves the result in storage order. -/
theorem tools_secondary_sorts (s : DBState) (q c : Option String) :
    (list_tools (some s) q c (some "difficulty")).Pairwise
        (fun a b => diffRank a ≤ diffRank b)
    ∧ (list_tools (some s) q c (some "difficulty")).Perm
        (s.tool.filter (matchesFilter (buildFilter q c)))
    ∧ (list_tools (some s) q c (some "category")).Pairwise
        (fun a b => catKey a ≤ catKey b)
    ∧ (list_tools (some s) q c (some "category")).Perm
        (s.tool.filter (matchesFilter (buildFilter q c)))
    ∧ (∀ t : ToolDoc, t.difficulty = none → diffRank t = 0)
    ∧ (∀ t : ToolDoc, t.difficulty = some "Beginner" → diffRank t = 0)
    ∧ (∀ t : ToolDoc, t.difficulty = some "Intermediate" → diffRank t = 1)
    ∧ (∀ t : ToolDoc, t.difficulty = some "Advanced" → diffRank t = 2)
    ∧ (∀ t : ToolDoc, ∀ d, t.difficulty = some d → d ∉ difficulties →
        diffRank t = 0)
    ∧ (∀ t : ToolDoc, t.category = none → catKey t = "")
    ∧ (∀ srt : Option String, srt ≠ some "popularity" →
        srt ≠ some "difficulty" → srt ≠ some "category" →
        list_tools (some s) q c srt =
          s.tool.filter (matchesFilter (buildFilter q c))) := by
  have hdefd : list_tools (some s) q c (some "difficulty") =
      (s.tool.filter (matchesFilter (buildFilter q c))).mergeSort diffLe := rfl
  have hdefc : list_tools (some s) q c (some "category") =
      (s.tool.filter (matchesFilter (buildFilter q c))).mergeSort catLe := rfl
  refine ⟨?_, ?_, ?_, ?_, ?_, ?_, ?_, ?_, ?_, ?_, ?_⟩
  · rw [hdefd]
    exact (List.sorted_mergeSort diffLe_trans diffLe_total _).imp
      (fun h => by simpa [diffLe] using h)
  · rw [hdefd]
    exact List.mergeSort_perm _ _
  · rw [hdefc]
    exact (List.sorted_mergeSort catLe_trans catLe_total _).imp
      (fun h => by simpa [catLe] using h)
  · rw [hdefc]
    exact List.mergeSort_perm _ _
  · intro t h
    simp [diffRank, h]
  · intro t h
    simp [diffRank, h]
  · intro t h
    simp [diffRank, h]
  · intro t h
    simp [diffRank, h]
  · intro t d h hd
    simp only [difficulties, List.mem_cons, List.not_mem_nil, or_false,
      not_or] at hd
    obtain ⟨h1, h2, h3⟩ := hd
    simp only [diffRank, h, Option.getD_some]
  · intro t h
    simp [catKey, h]
  · intro srt h1 h2 h3
    have e1 : (srt == some "popularity") = false := by simpa using h1
    have e2 : (srt == some "difficulty") = false := by simpa using h2
    have e3 : (srt == some "category") = false := by simpa using h3
    simp [list_tools, e1, e2, e3]

/-- C8 witness: concrete rank values and an unrecognized sort value that
leaves a concrete store in storage order. -/
theorem tools_secondary_sorts_witness :
    diffRank { name := "A", difficulty := some "Advanced" } = 2
    ∧ diffRank { name := "E", difficulty := some "Expert" } = 0
    ∧ diffRank { name := "M" } = 0
    ∧ list_tools (some { tool := [nmapTool, wiresharkTool] }) none none
        (some "name") = [nmapTool, wiresharkTool] := by
  refine ⟨?_, ?_, ?_, ?_⟩
  · exact (tools_secondary_sorts {} none none).2.2.2.2.2.2.2.1
      { name := "A", difficulty := some "Advanced" } rfl
  · exact (tools_secondary_sorts {} none none).2.2.2.2.2.2.2.2.1
      { name := "E", difficulty := some "Expert" } "Expert" rfl (by decide)
  · exact (tools_secondary_sorts {} none none).2.2.2.2.1 { name := "M" } rfl
  · have h := (tools_secondary_sorts { tool := [nmapTool, wiresharkTool] }
      none none).2.2.2.2.2.2.2.2.2.2 (some "name")
      (by decide) (by decide) (by decide)
    rw [h]
    decide

/-- C10: a `q` or `category` query parameter supplied as the empty string
is treated exactly like an absent parameter by `GET /tools`, because the
handler tests each parameter for Python truthiness, not presence. -/
theorem empty_params_no_filter (s : DBState) (srt : Option String) :
    (∀ c, list_tools (some s) (some "") c srt = list_tools (some s) none c srt)
    ∧ (∀ q, list_tools (some s) q (some "") srt = list_tools (some s) q none srt)
    ∧ list_tools (some s) (some "") (some "") srt =
        list_tools (some s) none none srt :=
  ⟨fun _ => rfl, fun _ => rfl, rfl⟩

end MRM
